import Mathlib

/-!
Verification development for the e-commerce analytics dashboard (`app.py`).

The program is a single-page Streamlit script: it attempts one database
connection, offers a sidebar selectbox with five fixed report names, and
dispatches on the selected name to a straight-line sequence of SQL queries
(each with `ttl=600`) whose results are rendered as metrics, charts and
tables.

Shallow embedding choices:
* The database is a record of in-memory tables (`Db`). Monetary values
  (`payment_value`) are represented as integer cents, so the SQL
  `ROUND(..., 2)` on sums is exact; `order_purchase_timestamp` only ever
  appears through `TO_CHAR(..., 'YYYY-MM')`, so orders carry the rendered
  month string directly.
* Each SQL query of the script is embedded as an evaluator over `Db`
  (COUNT / COUNT DISTINCT / SUM / AVG / GROUP BY / JOIN translated
  directly). Aggregates that are NULL on an empty table (SUM, AVG) and
  queries that fail (division by zero) return `none`.
* Rendering is modelled as an event trace (`Ev`). A run produces
  `Out = List Ev × Option String`: the events emitted before the script
  finished or died, and `some msg` when an uncaught exception aborted the
  script (Python `TypeError` on formatting `None`, or a SQL error).
* Python format strings are embedded as functions on the numeric
  representations: `fmtComma` for `{:,}`, `fmtCurrency` for `${:,.2f}`,
  `fmtFixed2` for `{:.2f}` and `fmtDec1` for the default rendering of a
  one-decimal NUMERIC.
-/

/-- Row of the `customers` table (`customer_id`, `customer_state`). -/
structure Customer where
  customer_id : Nat
  customer_state : String
deriving DecidableEq

/-- Row of the `orders` table. `order_month` is the value of
`TO_CHAR(order_purchase_timestamp::TIMESTAMP, 'YYYY-MM')`, the only form in
which the timestamp is consumed by the script. -/
structure Order where
  order_id : Nat
  customer_id : Nat
  order_status : String
  order_month : String
deriving DecidableEq

/-- Row of the `payments` table; `payment_value` in integer cents. -/
structure Payment where
  order_id : Nat
  payment_value : Int
deriving DecidableEq

/-- Row of the `products` table; `category` is the `product category` column. -/
structure Product where
  product_id : Nat
  category : String
deriving DecidableEq

/-- Row of the `order_items` table. -/
structure OrderItem where
  order_id : Nat
  product_id : Nat
deriving DecidableEq

/-- The database the dashboard queries. -/
structure Db where
  customers : List Customer
  orders : List Order
  payments : List Payment
  products : List Product
  order_items : List OrderItem
deriving DecidableEq

/-- Distinct elements of a list (keeping the first occurrence of each).
Used to evaluate `COUNT(DISTINCT ...)` and `GROUP BY`. -/
def distinctList [DecidableEq α] : List α → List α
  | [] => []
  | a :: l => if a ∈ distinctList l then distinctList l else a :: distinctList l

/-- Insertion step for `sortListBy`. -/
def insertSorted (r : α → α → Bool) (x : α) : List α → List α
  | [] => [x]
  | y :: ys => if r x y then x :: y :: ys else y :: insertSorted r x ys

/-- Insertion sort by a Boolean comparator, evaluating SQL `ORDER BY`. -/
def sortListBy (r : α → α → Bool) : List α → List α
  | [] => []
  | x :: xs => insertSorted r x (sortListBy r xs)

/-- Division rounded half away from zero, as `ROUND` on PostgreSQL NUMERIC. -/
def roundHalfDiv (a : Int) (b : Nat) : Int :=
  if 0 ≤ a then (2 * a + b) / (2 * b) else -((2 * (-a) + b) / (2 * b))

/-! ### Python numeric formatting -/

/-- Insert a comma after every third digit, walking the reversed digit list. -/
def commaGroup : List Char → Nat → List Char
  | [], _ => []
  | c :: cs, i =>
    (if 0 < i && i % 3 == 0 then [',', c] else [c]) ++ commaGroup cs (i + 1)

/-- Thousands grouping of a natural number, Python `{:,}`. -/
def fmtComma (n : Nat) : String :=
  String.mk ((commaGroup (toString n).data.reverse 0).reverse)

/-- Two-digit zero-padded fraction part. -/
def pad2 (n : Nat) : String :=
  if n < 10 then "0" ++ toString n else toString n

/-- Fixed two-decimal rendering of a cents value without grouping,
Python `{:.2f}`. -/
def fmtFixed2 (c : Int) : String :=
  (if c < 0 then "-" else "") ++ toString (c.natAbs / 100) ++ "." ++ pad2 (c.natAbs % 100)

/-- Dollar format with grouping and two decimals, Python `${:,.2f}`. -/
def fmtCurrency (c : Int) : String :=
  "$" ++ (if c < 0 then "-" else "") ++ fmtComma (c.natAbs / 100) ++ "." ++ pad2 (c.natAbs % 100)

/-- Default rendering of a one-decimal NUMERIC value scaled by ten,
Python `{}` on the value of `ROUND(..., 1)`. -/
def fmtDec1 (d : Int) : String :=
  (if d < 0 then "-" else "") ++ toString (d.natAbs / 10) ++ "." ++ toString (d.natAbs % 10)

/-! ### The SQL text of every query issued by the script -/

def sqlTotalCustomers : String := "SELECT COUNT(customer_id) FROM customers"

def sqlUniqueOrders : String := "SELECT COUNT(DISTINCT order_id) FROM orders"

def sqlOrderRecords : String := "SELECT COUNT(*) FROM orders"

def sqlTotalRevenue : String := "SELECT ROUND(SUM(payment_value)::NUMERIC, 2) FROM payments"

def sqlActiveCustomers : String := "SELECT COUNT(DISTINCT customer_id) FROM orders"

def sqlAvgPayment : String := "SELECT ROUND(AVG(payment_value)::NUMERIC, 2) FROM payments"

def sqlCustomerState : String :=
  "\n        SELECT customer_state AS \"State\", COUNT(*) AS \"Customer Count\"\n        FROM customers\n        GROUP BY customer_state\n        ORDER BY \"Customer Count\" DESC\n        LIMIT 10\n        "

def sqlOrdersPerCustomer : String :=
  "SELECT ROUND((COUNT(DISTINCT order_id) * 1.0 / COUNT(DISTINCT customer_id))::NUMERIC, 2) FROM orders"

def sqlTotalProducts : String := "SELECT COUNT(DISTINCT product_id) FROM products"

def sqlDuplicateFactor : String :=
  "SELECT ROUND((COUNT(*) * 1.0 / COUNT(DISTINCT order_id))::NUMERIC, 1) FROM orders"

def sqlOrdersByStatus : String :=
  "\n        SELECT order_status AS \"Status\", COUNT(DISTINCT order_id) AS \"Count\" \n        FROM orders \n        GROUP BY order_status \n        ORDER BY \"Count\" DESC\n        "

def sqlOrdersOverTime : String :=
  "\n        SELECT \n            TO_CHAR(order_purchase_timestamp::TIMESTAMP, \x27YYYY-MM\x27) AS \"Month\",\n            COUNT(DISTINCT order_id) AS \"Order Count\"\n        FROM orders\n        GROUP BY \"Month\"\n        ORDER BY \"Month\"\n        "

def sqlRevenueByCategory : String :=
  "\n        SELECT \n            p.\"product category\" AS \"Category\",\n            ROUND(SUM(pay.payment_value)::NUMERIC, 2) AS \"Revenue\"\n        FROM products p\n        JOIN order_items oi ON p.product_id = oi.product_id\n        JOIN payments pay ON oi.order_id = pay.order_id\n        GROUP BY \"Category\"\n        ORDER BY \"Revenue\" DESC\n        LIMIT 10\n        "

def sqlTimeSeries : String :=
  "\n        SELECT \n            TO_CHAR(o.order_purchase_timestamp::TIMESTAMP, \x27YYYY-MM\x27) AS \"Month\",\n            ROUND(SUM(p.payment_value)::NUMERIC, 2) AS \"Revenue\",\n            COUNT(DISTINCT o.order_id) AS \"Order Count\"\n        FROM (SELECT DISTINCT order_id, order_purchase_timestamp FROM orders) o\n        JOIN payments p ON o.order_id = p.order_id\n        GROUP BY \"Month\"\n        ORDER BY \"Month\"\n        "

/-! ### Query evaluators -/

/-- `SELECT COUNT(customer_id) FROM customers` (ids are never NULL). -/
def countCustomers (db : Db) : Nat := db.customers.length

/-- `SELECT COUNT(DISTINCT order_id) FROM orders`. -/
def countDistinctOrders (db : Db) : Nat :=
  (distinctList (db.orders.map (·.order_id))).length

/-- `SELECT COUNT(*) FROM orders`. -/
def countOrderRecords (db : Db) : Nat := db.orders.length

/-- `SELECT ROUND(SUM(payment_value)::NUMERIC, 2) FROM payments`; `none` is
SQL NULL (SUM over an empty table). On cents the rounding is the identity. -/
def sumPayments (db : Db) : Option Int :=
  if db.payments.isEmpty then none
  else some ((db.payments.map (·.payment_value)).sum)

/-- `SELECT COUNT(DISTINCT customer_id) FROM orders`. -/
def countActiveCustomers (db : Db) : Nat :=
  (distinctList (db.orders.map (·.customer_id))).length

/-- `SELECT ROUND(AVG(payment_value)::NUMERIC, 2) FROM payments`; `none` is
SQL NULL (AVG over an empty table). -/
def avgPayments (db : Db) : Option Int :=
  if db.payments.isEmpty then none
  else some (roundHalfDiv ((db.payments.map (·.payment_value)).sum) db.payments.length)

/-- The Customer Analysis query: customers per state, descending, top 10. -/
def qCustomerState (db : Db) : List (String × Nat) :=
  let states := distinctList (db.customers.map (·.customer_state))
  let grouped := states.map fun s =>
    (s, (db.customers.filter (fun c => c.customer_state == s)).length)
  (sortListBy (fun a b => decide (b.2 ≤ a.2)) grouped).take 10

/-- `SELECT ROUND((COUNT(DISTINCT order_id) * 1.0 / COUNT(DISTINCT customer_id))::NUMERIC, 2) FROM orders`,
scaled by 100; `none` is the division-by-zero SQL error on an empty table. -/
def ordersPerCustomer (db : Db) : Option Int :=
  let dc := countActiveCustomers db
  if dc = 0 then none
  else some (roundHalfDiv (100 * (countDistinctOrders db : Int)) dc)

/-- `SELECT COUNT(DISTINCT product_id) FROM products`. -/
def countDistinctProducts (db : Db) : Nat :=
  (distinctList (db.products.map (·.product_id))).length

/-- `SELECT ROUND((COUNT(*) * 1.0 / COUNT(DISTINCT order_id))::NUMERIC, 1) FROM orders`,
scaled by 10; `none` is the division-by-zero SQL error on an empty table. -/
def duplicateFactor (db : Db) : Option Int :=
  let dord := countDistinctOrders db
  if dord = 0 then none
  else some (roundHalfDiv (10 * (countOrderRecords db : Int)) dord)

/-- Distinct orders per status, descending by count. -/
def qOrdersByStatus (db : Db) : List (String × Nat) :=
  let sts := distinctList (db.orders.map (·.order_status))
  sortListBy (fun a b => decide (b.2 ≤ a.2)) (sts.map fun s =>
    (s, (distinctList ((db.orders.filter (fun o => o.order_status == s)).map (·.order_id))).length))

/-- Distinct orders per month, ascending by month. -/
def qOrdersOverTime (db : Db) : List (String × Nat) :=
  let ms := distinctList (db.orders.map (·.order_month))
  sortListBy (fun a b => decide (a.1 < b.1) || a.1 == b.1) (ms.map fun m =>
    (m, (distinctList ((db.orders.filter (fun o => o.order_month == m)).map (·.order_id))).length))

/-- The Sales & Revenue query: revenue (cents) per product category from the
three-way join, descending, top 10. -/
def qRevenueByCategory (db : Db) : List (String × Int) :=
  let rows : List (String × Int) := db.order_items.flatMap fun oi =>
    (db.products.filter (fun p => p.product_id == oi.product_id)).flatMap fun p =>
      (db.payments.filter (fun pay => pay.order_id == oi.order_id)).map fun pay =>
        (p.category, pay.payment_value)
  let cats := distinctList (rows.map (·.1))
  (sortListBy (fun a b => decide (b.2 ≤ a.2)) (cats.map fun c =>
    (c, ((rows.filter (fun r => r.1 == c)).map (·.2)).sum))).take 10

/-- The Time Series query: per month, revenue (cents) and distinct order
count, from distinct orders joined with payments, ascending by month. -/
def qTimeSeries (db : Db) : List (String × Int × Nat) :=
  let o := distinctList (db.orders.map fun r => (r.order_id, r.order_month))
  let rows : List (String × Nat × Int) := o.flatMap fun op =>
    (db.payments.filter (fun pay => pay.order_id == op.1)).map fun pay =>
      (op.2, op.1, pay.payment_value)
  let ms := distinctList (rows.map (·.1))
  sortListBy (fun a b => decide (a.1 < b.1) || a.1 == b.1) (ms.map fun m =>
    let mr := rows.filter (fun r => r.1 == m)
    (m, ((mr.map (fun r => r.2.2)).sum, (distinctList (mr.map (fun r => r.2.1))).length)))

/-! ### Render events -/

/-- Chart kinds produced by the script (`px.bar`, `px.line`). -/
inductive ChartKind where
  | bar
  | line
deriving DecidableEq

/-- One observable rendering or querying step of the script. -/
inductive Ev where
  | title (s : String)
  | rule
  | success (s : String)
  | error (s : String)
  | sidebarTitle (s : String)
  | header (s : String)
  | subheader (s : String)
  | query (sql : String) (ttl : Nat)
  | metric (label : String) (value : String)
  | info (s : String)
  | markdown (s : String)
  | chart (kind : ChartKind) (chartTitle : String)
  | dataframe
  | stop
deriving DecidableEq

/-- A run's outcome: the events emitted, and `some msg` when an uncaught
exception aborted the script before it finished. -/
abbrev Out := List Ev × Option String

/-- Events of an outcome. -/
def eventsOf (o : Out) : List Ev := o.1

/-- Exception of an outcome, `none` when the script ran to completion. -/
def scriptErr (o : Out) : Option String := o.2

/-- The queries (SQL text, ttl) recorded in an event list, in order. -/
def queriesIn : List Ev → List (String × Nat)
  | [] => []
  | .query s t :: evs => (s, t) :: queriesIn evs
  | _ :: evs => queriesIn evs

/-- Recognizes error events. -/
def isErrorEv : Ev → Bool
  | .error _ => true
  | _ => false

/-- Python `TypeError` raised by formatting a NULL (None) first cell. -/
def typeErrNone : String :=
  "TypeError: unsupported format string passed to NoneType.__format__"

/-- PostgreSQL error raised by a query dividing by zero. -/
def divByZeroErr : String := "psycopg2.errors.DivisionByZero: division by zero"

/-! ### The five report branches -/

/-- The markdown block closing the Overview section. -/
def aboutSection : List Ev :=
  [Ev.markdown "###  About This Dashboard",
   Ev.markdown "This dashboard analyzes e-commerce data including:",
   Ev.markdown "• *Customer Demographics*: Cities, states, and customer distribution",
   Ev.markdown "• *Order Patterns*: Monthly trends, seasonal analysis",
   Ev.markdown "• *Sales Performance*: Category-wise sales, revenue analysis",
   Ev.markdown "• *Business Metrics*: Growth rates, retention, top performers",
   Ev.markdown "Navigate through different sections using the sidebar to explore various aspects of the data."]

/-- The data note shown in the Overview section. -/
def overviewNote : String :=
  " *Data Note*: \x27Unique Orders\x27 shows distinct business transactions, while \x27Order Records\x27 shows total database rows (including duplicates)."

/-- The data note shown in the Order Analysis section. -/
def orderNote : String :=
  " *Note*: Each order appears multiple times in the database. This could be due to order updates, multiple items, or data import issues."

/-- The `Overview` branch: six metrics (four fallible formats on the two
NULL-able aggregates), a note, and the about block. -/
def renderOverview (db : Db) : Out :=
  let pre :=
    [Ev.header "Dashboard Overview",
     Ev.query sqlTotalCustomers 600,
     Ev.metric "Total Customers" (fmtComma (countCustomers db)),
     Ev.query sqlUniqueOrders 600,
     Ev.metric "Unique Orders" (fmtComma (countDistinctOrders db)),
     Ev.query sqlOrderRecords 600,
     Ev.metric "Order Records" (fmtComma (countOrderRecords db)),
     Ev.query sqlTotalRevenue 600]
  match sumPayments db with
  | none => (pre, some typeErrNone)
  | some rev =>
    let mid := pre ++
      [Ev.metric "Total Revenue" (fmtCurrency rev),
       Ev.rule,
       Ev.info overviewNote,
       Ev.query sqlActiveCustomers 600,
       Ev.metric "Active Customers" (fmtComma (countActiveCustomers db)),
       Ev.query sqlAvgPayment 600]
    match avgPayments db with
    | none => (mid, some typeErrNone)
    | some avg =>
      (mid ++ [Ev.metric "Avg Order Value" (fmtCurrency avg)] ++ aboutSection, none)

/-- The `Customer Analysis` branch: header, one query, and a chart plus
table only when the result is nonempty. -/
def renderCustomerAnalysis (db : Db) : Out :=
  ([Ev.header "Customer Analysis", Ev.query sqlCustomerState 600] ++
    (if (qCustomerState db).isEmpty then []
     else [Ev.chart .bar "Top 10 States by Customer Count", Ev.dataframe]),
   none)

/-- The chart part of the `Order Analysis` branch (lines after the metric
grid): two queried charts, each suppressed when its result is empty. -/
def orderChartsRest (db : Db) : List Ev :=
  [Ev.subheader " Orders by Status", Ev.query sqlOrdersByStatus 600] ++
  (if (qOrdersByStatus db).isEmpty then []
   else [Ev.chart .bar "Unique Orders by Status"]) ++
  [Ev.subheader "📅 Orders Over Time", Ev.query sqlOrdersOverTime 600] ++
  (if (qOrdersOverTime db).isEmpty then []
   else [Ev.chart .line "Unique Orders Over Time"])

/-- The `Order Analysis` branch: metric grid (with a division-by-zero query
and two fallible formats), a note, then the two charts. -/
def renderOrderAnalysis (db : Db) : Out :=
  let pre :=
    [Ev.header "Order Analysis",
     Ev.subheader "Order Statistics",
     Ev.query sqlUniqueOrders 600,
     Ev.metric "Unique Orders" (fmtComma (countDistinctOrders db)),
     Ev.query sqlOrdersPerCustomer 600]
  match ordersPerCustomer db with
  | none => (pre, some divByZeroErr)
  | some opc =>
    let pre2 := pre ++
      [Ev.metric "Orders per Customer" (fmtFixed2 opc),
       Ev.query sqlAvgPayment 600]
    match avgPayments db with
    | none => (pre2, some typeErrNone)
    | some avg =>
      let pre3 := pre2 ++
        [Ev.metric "Avg Order Value" (fmtCurrency avg),
         Ev.query sqlTotalProducts 600,
         Ev.metric "Total Products" (fmtComma (countDistinctProducts db)),
         Ev.subheader " Data Quality",
         Ev.query sqlOrderRecords 600,
         Ev.metric "Order Records" (fmtComma (countOrderRecords db)),
         Ev.query sqlDuplicateFactor 600]
      match duplicateFactor db with
      | none => (pre3, some divByZeroErr)
      | some dup =>
        (pre3 ++ [Ev.metric "Duplicate Factor" (fmtDec1 dup ++ "x"), Ev.info orderNote] ++
          orderChartsRest db, none)

/-- The `Sales & Revenue` branch: header, one query, chart plus table only
when the result is nonempty. -/
def renderSales (db : Db) : Out :=
  ([Ev.header "Sales & Revenue Analysis", Ev.query sqlRevenueByCategory 600] ++
    (if (qRevenueByCategory db).isEmpty then []
     else [Ev.chart .bar "Revenue by Product Category", Ev.dataframe]),
   none)

/-- The `Time Series Analysis` branch: header, one query, two charts and a
table only when the result is nonempty. -/
def renderTimeSeries (db : Db) : Out :=
  ([Ev.header "Time Series Analysis", Ev.query sqlTimeSeries 600] ++
    (if (qTimeSeries db).isEmpty then []
     else [Ev.chart .line "Monthly Revenue Trend",
           Ev.chart .line "Monthly Order Count",
           Ev.dataframe]),
   none)

/-! ### Dispatch and main -/

/-- The five values offered by the sidebar selectbox, each with its leading
space, in source order. -/
def selectboxOptions : List String :=
  [" Overview", " Customer Analysis", " Order Analysis", " Sales & Revenue",
   " Time Series Analysis"]

/-- The if/elif dispatch on the selected analysis type. A value matching no
branch renders nothing and raises nothing. -/
def dispatch (sel : String) (db : Db) : Out :=
  if sel = " Overview" then renderOverview db
  else if sel = " Customer Analysis" then renderCustomerAnalysis db
  else if sel = " Order Analysis" then renderOrderAnalysis db
  else if sel = " Sales & Revenue" then renderSales db
  else if sel = " Time Series Analysis" then renderTimeSeries db
  else ([], none)

/-- The page title shown before anything else. -/
def dashTitle : String := "🛒 E-Commerce Data Analysis Dashboard"

/-- The single user-facing message on connection failure. -/
def connectErrMsg : String :=
  "❌ Unable to connect to database. Please check your connection settings in .streamlit/secrets.toml"

/-- Events emitted before the dispatch when the connection succeeded. -/
def chromePre : List Ev :=
  [Ev.title dashTitle, Ev.rule,
   Ev.success "✅ Connected to database successfully!",
   Ev.sidebarTitle " Navigation"]

/-- The footer and links section closing every completed render. -/
def footerEvs : List Ev :=
  [Ev.rule,
   Ev.markdown "### 📊 Dashboard created using Streamlit",
   Ev.markdown "Data source: E-commerce PostgreSQL Database",
   Ev.rule,
   Ev.markdown "### 👨‍💻 Created by Punarbasu Chakraborty",
   Ev.markdown "🔗 *LinkedIn*",
   Ev.markdown "[Connect with me](https://linkedin.com/in/punarbasu-chakraborty-628566252/)",
   Ev.markdown "🐙 *GitHub*",
   Ev.markdown "[View my projects](https://github.com/punarchakra02)",
   Ev.markdown "📧 *Email*",
   Ev.markdown "[Contact me](mailto:punarbasu02chakra@gmail.com)",
   Ev.rule,
   Ev.markdown "Built with ❤ using Python, SQL & Streamlit"]

/-- The whole script run. `connOk` is whether `st.connection` succeeded;
`analysis_type` is the selectbox value; an exception in the dispatched
branch truncates the trace and skips the footer; a connection failure
renders the title, the error, and stops. -/
def appMain (connOk : Bool) (analysis_type : String) (db : Db) : Out :=
  if connOk then
    match dispatch analysis_type db with
    | (evs, none) => (chromePre ++ evs ++ footerEvs, none)
    | (evs, some e) => (chromePre ++ evs, some e)
  else
    ([Ev.title dashTitle, Ev.rule, Ev.error connectErrMsg, Ev.stop], none)

/-! ### Spec-side enumerations and predicates -/

/-- The fixed, enumerable set of queries the spec associates with each
report name: per dispatch branch, the (SQL, ttl) pairs in source order. -/
def dispatchQueries (sel : String) : List (String × Nat) :=
  if sel = " Overview" then
    [(sqlTotalCustomers, 600), (sqlUniqueOrders, 600), (sqlOrderRecords, 600),
     (sqlTotalRevenue, 600), (sqlActiveCustomers, 600), (sqlAvgPayment, 600)]
  else if sel = " Customer Analysis" then [(sqlCustomerState, 600)]
  else if sel = " Order Analysis" then
    [(sqlUniqueOrders, 600), (sqlOrdersPerCustomer, 600), (sqlAvgPayment, 600),
     (sqlTotalProducts, 600), (sqlOrderRecords, 600), (sqlDuplicateFactor, 600),
     (sqlOrdersByStatus, 600), (sqlOrdersOverTime, 600)]
  else if sel = " Sales & Revenue" then [(sqlRevenueByCategory, 600)]
  else if sel = " Time Series Analysis" then [(sqlTimeSeries, 600)]
  else []

/-- Character-list matching of a pattern at the front. -/
def startsWithChars : List Char → List Char → Bool
  | [], _ => true
  | _ :: _, [] => false
  | p :: ps, c :: cs => p == c && startsWithChars ps cs

/-- Substring occurrence on character lists. -/
def containsChars (pat : List Char) : List Char → Bool
  | [] => pat.isEmpty
  | c :: cs => startsWithChars pat (c :: cs) || containsChars pat cs

/-- SQL whitespace. -/
def isWs (c : Char) : Bool := c == ' ' || c == '\n' || c == '\t' || c == '\r'

/-- A query is a read-only SELECT: its first token is `SELECT` and it
contains no write/DDL keyword. -/
def isReadOnlySelect (s : String) : Bool :=
  startsWithChars ['S', 'E', 'L', 'E', 'C', 'T'] (s.data.dropWhile isWs) &&
    (["INSERT", "UPDATE", "DELETE", "DROP", "CREATE", "ALTER", "TRUNCATE",
      "GRANT"].all fun k => !(containsChars k.data s.data))

/-- Shape of a rendered metric value, for the amended formatting claim:
grouped count, grouped two-decimal dollar amount, or one of the two
ungrouped exceptions (`Orders per Customer`, `Duplicate Factor`). -/
def metricShape (l v : String) : Prop :=
  (∃ n : Nat, v = fmtComma n) ∨ (∃ c : Int, v = fmtCurrency c) ∨
    (l = "Orders per Customer" ∧ ∃ r : Int, v = fmtFixed2 r) ∨
    (l = "Duplicate Factor" ∧ ∃ d : Int, v = fmtDec1 d ++ "x")

/-! ### Concrete databases used as witnesses and counterexamples -/

/-- The database of the Overview scenario: 100 customers, 50 distinct order
ids among 120 order rows, payments summing to 5000.00 dollars. -/
def dbC2 : Db where
  customers := (List.range 100).map fun i => ⟨i, "SP"⟩
  orders := (List.range 120).map fun i => ⟨i % 50, i, "delivered", "2020-01"⟩
  payments := [⟨0, 250000⟩, ⟨1, 250000⟩]
  products := []
  order_items := []

/-- A database with 1000 distinct orders of a single customer, making the
`Orders per Customer` metric reach four digits. -/
def dbManyOrders : Db where
  customers := []
  orders := (List.range 1000).map fun i => ⟨i, 0, "delivered", "2020-01"⟩
  payments := [⟨0, 100⟩]
  products := [⟨0, "toys"⟩]
  order_items := []

/-- A database with 1000 rows of one order id, making the `Duplicate
Factor` metric reach four digits. -/
def dbManyDup : Db where
  customers := []
  orders := (List.range 1000).map fun _ => ⟨0, 0, "delivered", "2020-01"⟩
  payments := [⟨0, 100⟩]
  products := []
  order_items := []

/-- The empty database. -/
def dbEmpty : Db where
  customers := []
  orders := []
  payments := []
  products := []
  order_items := []

/-- A database with one order and no payments: SUM/AVG over `payments` are
NULL while the order-count divisions succeed. -/
def dbNoPayments : Db where
  customers := []
  orders := [⟨0, 0, "delivered", "2020-01"⟩]
  payments := []
  products := []
  order_items := []

/-! ### Helper lemmas -/

/-- Unfolding of a successful-connection run. -/
theorem appMain_true_eq (sel : String) (db : Db) :
    appMain true sel db =
      (chromePre ++ (dispatch sel db).1 ++
        (if (dispatch sel db).2 = none then footerEvs else []),
       (dispatch sel db).2) := by
  unfold appMain
  rcases hd : dispatch sel db with ⟨evs, e⟩
  cases e <;> simp

theorem queriesIn_append (a b : List Ev) :
    queriesIn (a ++ b) = queriesIn a ++ queriesIn b := by
  induction a with
  | nil => rfl
  | cons e es ih => cases e <;> simp [queriesIn, ih]

theorem queriesIn_chrome : queriesIn chromePre = [] := rfl

theorem queriesIn_footer : queriesIn footerEvs = [] := rfl

theorem queriesIn_appMain_true (sel : String) (db : Db) :
    queriesIn (eventsOf (appMain true sel db)) = queriesIn (dispatch sel db).1 := by
  rw [appMain_true_eq]
  unfold eventsOf
  rw [queriesIn_append, queriesIn_append, queriesIn_chrome]
  split
  · rw [queriesIn_footer, List.append_nil, List.nil_append]
  · simp [queriesIn]

theorem dq_overview : dispatchQueries " Overview" =
    [(sqlTotalCustomers, 600), (sqlUniqueOrders, 600), (sqlOrderRecords, 600),
     (sqlTotalRevenue, 600), (sqlActiveCustomers, 600), (sqlAvgPayment, 600)] := rfl

theorem dq_customer : dispatchQueries " Customer Analysis" = [(sqlCustomerState, 600)] := rfl

theorem dq_order : dispatchQueries " Order Analysis" =
    [(sqlUniqueOrders, 600), (sqlOrdersPerCustomer, 600), (sqlAvgPayment, 600),
     (sqlTotalProducts, 600), (sqlOrderRecords, 600), (sqlDuplicateFactor, 600),
     (sqlOrdersByStatus, 600), (sqlOrdersOverTime, 600)] := rfl

theorem dq_sales : dispatchQueries " Sales & Revenue" = [(sqlRevenueByCategory, 600)] := rfl

theorem dq_time : dispatchQueries " Time Series Analysis" = [(sqlTimeSeries, 600)] := rfl

theorem overview_queries_sub (db : Db) :
    ∀ p ∈ queriesIn (renderOverview db).1, p ∈ dispatchQueries " Overview" := by
  unfold renderOverview
  rw [dq_overview]
  rcases hs : sumPayments db with _ | rev
  · simp [queriesIn]
  · rcases ha : avgPayments db with _ | avg <;>
      simp [queriesIn_append, queriesIn, aboutSection]

theorem overview_queries_ok (db : Db) (h : (renderOverview db).2 = none) :
    queriesIn (renderOverview db).1 = dispatchQueries " Overview" := by
  unfold renderOverview at h ⊢
  rw [dq_overview]
  rcases hs : sumPayments db with _ | rev
  · simp [hs] at h
  · simp only [hs] at h ⊢
    rcases ha : avgPayments db with _ | avg
    · simp [ha] at h
    · simp only [ha]
      simp [queriesIn_append, queriesIn, aboutSection]

theorem customer_queries_eq (db : Db) :
    queriesIn (renderCustomerAnalysis db).1 = dispatchQueries " Customer Analysis" := by
  unfold renderCustomerAnalysis
  rw [dq_customer]
  split <;> simp [queriesIn_append, queriesIn]

theorem orderChartsRest_queries (db : Db) :
    queriesIn (orderChartsRest db) = [(sqlOrdersByStatus, 600), (sqlOrdersOverTime, 600)] := by
  unfold orderChartsRest
  split <;> split <;> simp [queriesIn_append, queriesIn]

theorem order_queries_sub (db : Db) :
    ∀ p ∈ queriesIn (renderOrderAnalysis db).1, p ∈ dispatchQueries " Order Analysis" := by
  unfold renderOrderAnalysis
  rw [dq_order]
  rcases h1 : ordersPerCustomer db with _ | opc
  · simp [queriesIn]
  · rcases h2 : avgPayments db with _ | avg
    · simp [queriesIn_append, queriesIn]
    · rcases h3 : duplicateFactor db with _ | dup
      · simp [queriesIn_append, queriesIn]
      · rw [queriesIn_append, orderChartsRest_queries]
        simp [queriesIn_append, queriesIn]

theorem order_queries_ok (db : Db) (h : (renderOrderAnalysis db).2 = none) :
    queriesIn (renderOrderAnalysis db).1 = dispatchQueries " Order Analysis" := by
  unfold renderOrderAnalysis at h ⊢
  rw [dq_order]
  rcases h1 : ordersPerCustomer db with _ | opc
  · simp [h1] at h
  · simp only [h1] at h ⊢
    rcases h2 : avgPayments db with _ | avg
    · simp [h2] at h
    · simp only [h2] at h ⊢
      rcases h3 : duplicateFactor db with _ | dup
      · simp [h3] at h
      · simp only [h3]
        rw [queriesIn_append, orderChartsRest_queries]
        simp [queriesIn_append, queriesIn]

theorem sales_queries_eq (db : Db) :
    queriesIn (renderSales db).1 = dispatchQueries " Sales & Revenue" := by
  unfold renderSales
  rw [dq_sales]
  split <;> simp [queriesIn_append, queriesIn]

theorem time_queries_eq (db : Db) :
    queriesIn (renderTimeSeries db).1 = dispatchQueries " Time Series Analysis" := by
  unfold renderTimeSeries
  rw [dq_time]
  split <;> simp [queriesIn_append, queriesIn]

theorem dispatch_queries_sub (sel : String) (db : Db) :
    ∀ p ∈ queriesIn (dispatch sel db).1, p ∈ dispatchQueries sel := by
  unfold dispatch
  split
  · next h => subst h; exact overview_queries_sub db
  · split
    · next h =>
        subst h
        intro p hp
        rwa [customer_queries_eq] at hp
    · split
      · next h => subst h; exact order_queries_sub db
      · split
        · next h =>
            subst h
            intro p hp
            rwa [sales_queries_eq] at hp
        · split
          · next h =>
              subst h
              intro p hp
              rwa [time_queries_eq] at hp
          · intro p hp
            simp [queriesIn] at hp

/-- C1: each of the five selectable report names makes the dispatcher issue
exactly the fixed, enumerable query set of its branch (`dispatchQueries`) —
all of them when the branch completes, and never any query outside that
set — and the selection control offers exactly those five fixed strings.
The dispatcher's only input is the selectbox value (`appMain`'s
`analysis_type` argument). -/
theorem c1_fixed_query_sets :
    selectboxOptions = [" Overview", " Customer Analysis", " Order Analysis",
      " Sales & Revenue", " Time Series Analysis"] ∧
    ∀ sel ∈ selectboxOptions, ∀ db : Db,
      (∀ p ∈ queriesIn (eventsOf (appMain true sel db)), p ∈ dispatchQueries sel) ∧
      (scriptErr (appMain true sel db) = none →
        queriesIn (eventsOf (appMain true sel db)) = dispatchQueries sel) := by
  refine ⟨rfl, ?_⟩
  intro sel hsel db
  have hq := queriesIn_appMain_true sel db
  have herr : scriptErr (appMain true sel db) = (dispatch sel db).2 := by
    rw [appMain_true_eq]
    rfl
  constructor
  · intro p hp
    rw [hq] at hp
    exact dispatch_queries_sub sel db p hp
  · intro hnone
    rw [hq]
    rw [herr] at hnone
    simp only [selectboxOptions, List.mem_cons, List.not_mem_nil, or_false] at hsel
    rcases hsel with rfl | rfl | rfl | rfl | rfl
    · exact overview_queries_ok db hnone
    · exact customer_queries_eq db
    · exact order_queries_ok db hnone
    · exact sales_queries_eq db
    · exact time_queries_eq db

/-- Witness for C1 at the Customer Analysis report on the empty database. -/
theorem c1_fixed_query_sets_witness :
    (" Customer Analysis" ∈ selectboxOptions ∧
      scriptErr (appMain true " Customer Analysis" dbEmpty) = none) ∧
    queriesIn (eventsOf (appMain true " Customer Analysis" dbEmpty)) =
      dispatchQueries " Customer Analysis" :=
  ⟨⟨by simp [selectboxOptions], rfl⟩,
    (c1_fixed_query_sets.2 " Customer Analysis" (by simp [selectboxOptions]) dbEmpty).2 rfl⟩

theorem dispatch_overview (db : Db) : dispatch " Overview" db = renderOverview db := rfl

theorem dispatch_customer (db : Db) :
    dispatch " Customer Analysis" db = renderCustomerAnalysis db := rfl

theorem dispatch_order (db : Db) :
    dispatch " Order Analysis" db = renderOrderAnalysis db := rfl

theorem dispatch_sales (db : Db) : dispatch " Sales & Revenue" db = renderSales db := rfl

theorem dispatch_time (db : Db) :
    dispatch " Time Series Analysis" db = renderTimeSeries db := rfl

theorem scriptErr_appMain_true (sel : String) (db : Db) :
    scriptErr (appMain true sel db) = (dispatch sel db).2 := by
  rw [appMain_true_eq]
  rfl

theorem mem_appMain_of_mem_dispatch (sel : String) (db : Db) (e : Ev)
    (h : e ∈ (dispatch sel db).1) : e ∈ eventsOf (appMain true sel db) := by
  rw [appMain_true_eq]
  unfold eventsOf
  rw [List.mem_append, List.mem_append]
  exact Or.inl (Or.inr h)

/-- C2: on a database with 100 customers, 50 distinct order ids, 120 order
rows and payments summing to 5000.00 dollars (500000 cents), the Overview
report renders the four headline metrics with the specified strings. -/
theorem c2_overview_scenario (db : Db)
    (h1 : countCustomers db = 100) (h2 : countDistinctOrders db = 50)
    (h3 : countOrderRecords db = 120) (h4 : sumPayments db = some 500000) :
    Ev.metric "Total Customers" "100" ∈ eventsOf (appMain true " Overview" db) ∧
    Ev.metric "Unique Orders" "50" ∈ eventsOf (appMain true " Overview" db) ∧
    Ev.metric "Order Records" "120" ∈ eventsOf (appMain true " Overview" db) ∧
    Ev.metric "Total Revenue" "$5,000.00" ∈ eventsOf (appMain true " Overview" db) := by
  have hd : dispatch " Overview" db = renderOverview db := rfl
  have lift : ∀ e, e ∈ (renderOverview db).1 → e ∈ eventsOf (appMain true " Overview" db) := by
    intro e he
    refine mem_appMain_of_mem_dispatch _ db e ?_
    rw [hd]
    exact he
  have f1 : fmtComma 100 = "100" := rfl
  have f2 : fmtComma 50 = "50" := rfl
  have f3 : fmtComma 120 = "120" := rfl
  have f4 : fmtCurrency 500000 = "$5,000.00" := rfl
  refine ⟨lift _ ?_, lift _ ?_, lift _ ?_, lift _ ?_⟩ <;>
    rcases h5 : avgPayments db with _ | avg <;>
      simp [renderOverview, h4, h5, h1, h2, h3, f1, f2, f3, f4]

set_option maxRecDepth 4000 in
/-- Witness for C2 on a concrete database realizing the scenario. -/
theorem c2_overview_scenario_witness :
    (countCustomers dbC2 = 100 ∧ countDistinctOrders dbC2 = 50 ∧
      countOrderRecords dbC2 = 120 ∧ sumPayments dbC2 = some 500000) ∧
    Ev.metric "Total Revenue" "$5,000.00" ∈ eventsOf (appMain true " Overview" dbC2) :=
  ⟨⟨rfl, rfl, rfl, rfl⟩, (c2_overview_scenario dbC2 rfl rfl rfl rfl).2.2.2⟩

theorem customer_render_of_empty (db : Db) (hq : qCustomerState db = []) :
    dispatch " Customer Analysis" db =
      ([Ev.header "Customer Analysis", Ev.query sqlCustomerState 600], none) := by
  show renderCustomerAnalysis db = _
  unfold renderCustomerAnalysis
  rw [hq]
  rfl

theorem sales_render_of_empty (db : Db) (hq : qRevenueByCategory db = []) :
    dispatch " Sales & Revenue" db =
      ([Ev.header "Sales & Revenue Analysis", Ev.query sqlRevenueByCategory 600], none) := by
  show renderSales db = _
  unfold renderSales
  rw [hq]
  rfl

theorem time_render_of_empty (db : Db) (hq : qTimeSeries db = []) :
    dispatch " Time Series Analysis" db =
      ([Ev.header "Time Series Analysis", Ev.query sqlTimeSeries 600], none) := by
  show renderTimeSeries db = _
  unfold renderTimeSeries
  rw [hq]
  rfl

/-- C3: a chart-producing Panel whose query comes back empty renders no
chart and raises no error, and the rest of the render proceeds: for the
three reports whose whole branch hangs off one guarded result this is
stated on the full run (no chart event at all, script finishes, the footer
after the guard still renders); for the two guarded charts of Order
Analysis it is stated on that branch's chart section (`orderChartsRest`,
the embedding of lines 156-181), which emits no exception by construction
and still emits the section that follows the suppressed chart. -/
theorem c3_empty_result_suppresses_charts (db : Db) :
    (qCustomerState db = [] →
      (∀ k t, Ev.chart k t ∉ eventsOf (appMain true " Customer Analysis" db)) ∧
      scriptErr (appMain true " Customer Analysis" db) = none ∧
      Ev.markdown "Built with ❤ using Python, SQL & Streamlit" ∈
        eventsOf (appMain true " Customer Analysis" db)) ∧
    (qRevenueByCategory db = [] →
      (∀ k t, Ev.chart k t ∉ eventsOf (appMain true " Sales & Revenue" db)) ∧
      scriptErr (appMain true " Sales & Revenue" db) = none ∧
      Ev.markdown "Built with ❤ using Python, SQL & Streamlit" ∈
        eventsOf (appMain true " Sales & Revenue" db)) ∧
    (qTimeSeries db = [] →
      (∀ k t, Ev.chart k t ∉ eventsOf (appMain true " Time Series Analysis" db)) ∧
      scriptErr (appMain true " Time Series Analysis" db) = none ∧
      Ev.markdown "Built with ❤ using Python, SQL & Streamlit" ∈
        eventsOf (appMain true " Time Series Analysis" db)) ∧
    (qOrdersByStatus db = [] →
      Ev.chart ChartKind.bar "Unique Orders by Status" ∉ orderChartsRest db ∧
      Ev.subheader "📅 Orders Over Time" ∈ orderChartsRest db) ∧
    (qOrdersOverTime db = [] →
      Ev.chart ChartKind.line "Unique Orders Over Time" ∉ orderChartsRest db) := by
  refine ⟨?_, ?_, ?_, ?_, ?_⟩
  · intro hq
    have hr := customer_render_of_empty db hq
    have he : eventsOf (appMain true " Customer Analysis" db) =
        chromePre ++ [Ev.header "Customer Analysis", Ev.query sqlCustomerState 600] ++
          footerEvs := by
      rw [appMain_true_eq, hr]
      rfl
    refine ⟨?_, ?_, ?_⟩
    · intro k t
      rw [he]
      simp [chromePre, footerEvs]
    · rw [scriptErr_appMain_true, hr]
    · rw [he]
      simp [footerEvs]
  · intro hq
    have hr := sales_render_of_empty db hq
    have he : eventsOf (appMain true " Sales & Revenue" db) =
        chromePre ++ [Ev.header "Sales & Revenue Analysis", Ev.query sqlRevenueByCategory 600] ++
          footerEvs := by
      rw [appMain_true_eq, hr]
      rfl
    refine ⟨?_, ?_, ?_⟩
    · intro k t
      rw [he]
      simp [chromePre, footerEvs]
    · rw [scriptErr_appMain_true, hr]
    · rw [he]
      simp [footerEvs]
  · intro hq
    have hr := time_render_of_empty db hq
    have he : eventsOf (appMain true " Time Series Analysis" db) =
        chromePre ++ [Ev.header "Time Series Analysis", Ev.query sqlTimeSeries 600] ++
          footerEvs := by
      rw [appMain_true_eq, hr]
      rfl
    refine ⟨?_, ?_, ?_⟩
    · intro k t
      rw [he]
      simp [chromePre, footerEvs]
    · rw [scriptErr_appMain_true, hr]
    · rw [he]
      simp [footerEvs]
  · intro hq
    unfold orderChartsRest
    rw [hq]
    constructor
    · by_cases h2 : (qOrdersOverTime db).isEmpty <;> simp [h2]
    · by_cases h2 : (qOrdersOverTime db).isEmpty <;> simp [h2]
  · intro hq
    unfold orderChartsRest
    rw [hq]
    by_cases h2 : (qOrdersByStatus db).isEmpty <;> simp [h2]

/-- Witness for C3 on the empty database. -/
theorem c3_empty_result_suppresses_charts_witness :
    (qCustomerState dbEmpty = [] ∧
      scriptErr (appMain true " Customer Analysis" dbEmpty) = none) ∧
    (qOrdersByStatus dbEmpty = [] ∧
      Ev.subheader "📅 Orders Over Time" ∈ orderChartsRest dbEmpty) :=
  ⟨⟨rfl, (((c3_empty_result_suppresses_charts dbEmpty).1 rfl).2).1⟩,
   ⟨rfl, (((c3_empty_result_suppresses_charts dbEmpty).2.2.2.1 rfl)).2⟩⟩

theorem qCustomerState_nil (db : Db) (h : db.customers = []) : qCustomerState db = [] := by
  unfold qCustomerState
  rw [h]
  rfl

/-- C4: selecting Customer Analysis against a customers table with no rows
renders the section header but no chart and no table, and raises no
error (the run completes through the footer). -/
theorem c4_customer_analysis_empty (db : Db) (h : db.customers = []) :
    Ev.header "Customer Analysis" ∈ eventsOf (appMain true " Customer Analysis" db) ∧
    (∀ k t, Ev.chart k t ∉ eventsOf (appMain true " Customer Analysis" db)) ∧
    Ev.dataframe ∉ eventsOf (appMain true " Customer Analysis" db) ∧
    scriptErr (appMain true " Customer Analysis" db) = none := by
  have hq := qCustomerState_nil db h
  have hr := customer_render_of_empty db hq
  have he : eventsOf (appMain true " Customer Analysis" db) =
      chromePre ++ [Ev.header "Customer Analysis", Ev.query sqlCustomerState 600] ++
        footerEvs := by
    rw [appMain_true_eq, hr]
    rfl
  refine ⟨?_, ?_, ?_, ?_⟩
  · rw [he]
    simp
  · intro k t
    rw [he]
    simp [chromePre, footerEvs]
  · rw [he]
    simp [chromePre, footerEvs]
  · rw [scriptErr_appMain_true, hr]

/-- Witness for C4 on the empty database. -/
theorem c4_customer_analysis_empty_witness :
    dbEmpty.customers = [] ∧
    Ev.header "Customer Analysis" ∈ eventsOf (appMain true " Customer Analysis" dbEmpty) :=
  ⟨rfl, (c4_customer_analysis_empty dbEmpty rfl).1⟩

theorem distinctList_nodup_eq [DecidableEq α] {l : List α} (h : l.Nodup) :
    distinctList l = l := by
  induction l with
  | nil => rfl
  | cons a t ih =>
    rw [List.nodup_cons] at h
    unfold distinctList
    rw [ih h.2, if_neg h.1]

theorem distinctList_replicate [DecidableEq α] (n : Nat) (a : α) :
    distinctList (List.replicate (n + 1) a) = [a] := by
  induction n with
  | zero => rfl
  | succ m ih =>
    show distinctList (a :: List.replicate (m + 1) a) = [a]
    unfold distinctList
    rw [ih, if_pos (List.mem_singleton.mpr rfl)]

theorem dbManyOrders_ids : dbManyOrders.orders.map (·.order_id) = List.range 1000 := by
  simp only [dbManyOrders]
  rw [List.map_map]
  exact List.map_id' _

theorem countDistinctOrders_dbManyOrders : countDistinctOrders dbManyOrders = 1000 := by
  unfold countDistinctOrders
  rw [dbManyOrders_ids, distinctList_nodup_eq (List.nodup_range 1000)]
  exact List.length_range 1000

theorem countActiveCustomers_dbManyOrders : countActiveCustomers dbManyOrders = 1 := by
  unfold countActiveCustomers
  have hm : dbManyOrders.orders.map (·.customer_id) = List.replicate 1000 0 := by
    simp only [dbManyOrders]
    rw [List.map_map]
    show (List.range 1000).map (fun _ => 0) = _
    rw [List.map_const', List.length_range]
  rw [hm, distinctList_replicate 999 0]
  rfl

theorem ordersPerCustomer_dbManyOrders : ordersPerCustomer dbManyOrders = some 100000 := by
  unfold ordersPerCustomer
  rw [countActiveCustomers_dbManyOrders, countDistinctOrders_dbManyOrders]
  rfl

theorem dbManyDup_ids : dbManyDup.orders.map (·.order_id) = List.replicate 1000 0 := by
  simp only [dbManyDup]
  rw [List.map_map]
  show (List.range 1000).map (fun _ => 0) = _
  rw [List.map_const', List.length_range]

theorem countDistinctOrders_dbManyDup : countDistinctOrders dbManyDup = 1 := by
  unfold countDistinctOrders
  rw [dbManyDup_ids, distinctList_replicate 999 0]
  rfl

theorem countOrderRecords_dbManyDup : countOrderRecords dbManyDup = 1000 := by
  unfold countOrderRecords
  simp only [dbManyDup]
  rw [List.length_map]
  exact List.length_range 1000

theorem countActiveCustomers_dbManyDup : countActiveCustomers dbManyDup = 1 := by
  unfold countActiveCustomers
  have hm : dbManyDup.orders.map (·.customer_id) = List.replicate 1000 0 := by
    simp only [dbManyDup]
    rw [List.map_map]
    show (List.range 1000).map (fun _ => 0) = _
    rw [List.map_const', List.length_range]
  rw [hm, distinctList_replicate 999 0]
  rfl

theorem ordersPerCustomer_dbManyDup : ordersPerCustomer dbManyDup = some 100 := by
  unfold ordersPerCustomer
  rw [countActiveCustomers_dbManyDup, countDistinctOrders_dbManyDup]
  rfl

theorem duplicateFactor_dbManyDup : duplicateFactor dbManyDup = some 10000 := by
  unfold duplicateFactor
  rw [countDistinctOrders_dbManyDup, countOrderRecords_dbManyDup]
  rfl

theorem renderOrderAnalysis_of_some (db : Db) (opc avg dup : Int)
    (h1 : ordersPerCustomer db = some opc) (h2 : avgPayments db = some avg)
    (h3 : duplicateFactor db = some dup) :
    renderOrderAnalysis db =
      ([Ev.header "Order Analysis",
        Ev.subheader "Order Statistics",
        Ev.query sqlUniqueOrders 600,
        Ev.metric "Unique Orders" (fmtComma (countDistinctOrders db)),
        Ev.query sqlOrdersPerCustomer 600] ++
       [Ev.metric "Orders per Customer" (fmtFixed2 opc),
        Ev.query sqlAvgPayment 600] ++
       [Ev.metric "Avg Order Value" (fmtCurrency avg),
        Ev.query sqlTotalProducts 600,
        Ev.metric "Total Products" (fmtComma (countDistinctProducts db)),
        Ev.subheader " Data Quality",
        Ev.query sqlOrderRecords 600,
        Ev.metric "Order Records" (fmtComma (countOrderRecords db)),
        Ev.query sqlDuplicateFactor 600] ++
       [Ev.metric "Duplicate Factor" (fmtDec1 dup ++ "x"), Ev.info orderNote] ++
       orderChartsRest db, none) := by
  unfold renderOrderAnalysis
  rw [h1, h2, h3]

theorem countOrderRecords_dbManyOrders : countOrderRecords dbManyOrders = 1000 := by
  unfold countOrderRecords
  simp only [dbManyOrders]
  rw [List.length_map]
  exact List.length_range 1000

theorem duplicateFactor_dbManyOrders : duplicateFactor dbManyOrders = some 10 := by
  unfold duplicateFactor
  rw [countDistinctOrders_dbManyOrders, countOrderRecords_dbManyOrders]
  rfl

/-- C5 counterexample: the `Orders per Customer` metric (Python `{:.2f}`)
and the `Duplicate Factor` metric (plain formatting) are rendered without
thousands separators even at four-digit values, unlike the grouped form
`fmtComma 1000 = "1,000"`; so not every numeric metric is formatted with
thousands separators. -/
theorem c5_counterexample_thousands_sep :
    Ev.metric "Orders per Customer" "1000.00" ∈
      eventsOf (appMain true " Order Analysis" dbManyOrders) ∧
    Ev.metric "Duplicate Factor" "1000.0x" ∈
      eventsOf (appMain true " Order Analysis" dbManyDup) ∧
    "1000.00".data.contains ',' = false ∧
    "1000.0x".data.contains ',' = false ∧
    fmtComma 1000 = "1,000" := by
  refine ⟨?_, ?_, rfl, rfl, rfl⟩
  · refine mem_appMain_of_mem_dispatch _ dbManyOrders _ ?_
    rw [dispatch_order,
      renderOrderAnalysis_of_some dbManyOrders 100000 100 10
        ordersPerCustomer_dbManyOrders rfl duplicateFactor_dbManyOrders]
    have hv : fmtFixed2 100000 = "1000.00" := rfl
    refine List.mem_append_left _ ?_
    refine List.mem_append_left _ ?_
    refine List.mem_append_left _ ?_
    refine List.mem_append_right _ ?_
    rw [hv]
    exact List.mem_cons_self _ _
  · refine mem_appMain_of_mem_dispatch _ dbManyDup _ ?_
    rw [dispatch_order,
      renderOrderAnalysis_of_some dbManyDup 100 100 10000
        ordersPerCustomer_dbManyDup rfl duplicateFactor_dbManyDup]
    have hv : fmtDec1 10000 ++ "x" = "1000.0x" := rfl
    refine List.mem_append_left _ ?_
    refine List.mem_append_right _ ?_
    rw [hv]
    exact List.mem_cons_self _ _

theorem metricShape_comma (l : String) (n : Nat) : metricShape l (fmtComma n) :=
  Or.inl ⟨n, rfl⟩

theorem metricShape_currency (l : String) (c : Int) : metricShape l (fmtCurrency c) :=
  Or.inr (Or.inl ⟨c, rfl⟩)

theorem metricShape_opc (r : Int) : metricShape "Orders per Customer" (fmtFixed2 r) :=
  Or.inr (Or.inr (Or.inl ⟨rfl, r, rfl⟩))

theorem metricShape_dup (d : Int) : metricShape "Duplicate Factor" (fmtDec1 d ++ "x") :=
  Or.inr (Or.inr (Or.inr ⟨rfl, d, rfl⟩))

theorem overview_metric_shape (db : Db) (l v : String)
    (h : Ev.metric l v ∈ (renderOverview db).1) : metricShape l v := by
  unfold renderOverview at h
  rcases hs : sumPayments db with _ | rev
  · simp only [hs] at h
    simp at h
    rcases h with ⟨rfl, rfl⟩ | ⟨rfl, rfl⟩ | ⟨rfl, rfl⟩ <;> exact metricShape_comma _ _
  · simp only [hs] at h
    rcases ha : avgPayments db with _ | avg
    · simp only [ha] at h
      simp [aboutSection] at h
      rcases h with ⟨rfl, rfl⟩ | ⟨rfl, rfl⟩ | ⟨rfl, rfl⟩ | ⟨rfl, rfl⟩ | ⟨rfl, rfl⟩ <;>
        first
          | exact metricShape_comma _ _
          | exact metricShape_currency _ _
    · simp only [ha] at h
      simp [aboutSection] at h
      rcases h with ⟨rfl, rfl⟩ | ⟨rfl, rfl⟩ | ⟨rfl, rfl⟩ | ⟨rfl, rfl⟩ | ⟨rfl, rfl⟩ | ⟨rfl, rfl⟩ <;>
        first
          | exact metricShape_comma _ _
          | exact metricShape_currency _ _

theorem customer_no_metric (db : Db) (l v : String) :
    Ev.metric l v ∉ (renderCustomerAnalysis db).1 := by
  unfold renderCustomerAnalysis
  split <;> simp

theorem sales_no_metric (db : Db) (l v : String) :
    Ev.metric l v ∉ (renderSales db).1 := by
  unfold renderSales
  split <;> simp

theorem time_no_metric (db : Db) (l v : String) :
    Ev.metric l v ∉ (renderTimeSeries db).1 := by
  unfold renderTimeSeries
  split <;> simp

theorem orderChartsRest_no_metric (db : Db) (l v : String) :
    Ev.metric l v ∉ orderChartsRest db := by
  unfold orderChartsRest
  split <;> split <;> simp

theorem order_metric_shape (db : Db) (l v : String)
    (h : Ev.metric l v ∈ (renderOrderAnalysis db).1) : metricShape l v := by
  unfold renderOrderAnalysis at h
  rcases h1 : ordersPerCustomer db with _ | opc
  · simp only [h1] at h
    simp at h
    rcases h with ⟨rfl, rfl⟩
    exact metricShape_comma _ _
  · simp only [h1] at h
    rcases h2 : avgPayments db with _ | avg
    · simp only [h2] at h
      simp at h
      rcases h with ⟨rfl, rfl⟩ | ⟨rfl, rfl⟩
      · exact metricShape_comma _ _
      · exact metricShape_opc _
    · simp only [h2] at h
      rcases h3 : duplicateFactor db with _ | dup
      · simp only [h3] at h
        simp at h
        rcases h with ⟨rfl, rfl⟩ | ⟨rfl, rfl⟩ | ⟨rfl, rfl⟩ | ⟨rfl, rfl⟩ | ⟨rfl, rfl⟩ <;>
          first
            | exact metricShape_comma _ _
            | exact metricShape_currency _ _
            | exact metricShape_opc _
      · simp only [h3] at h
        rcases List.mem_append.mp h with hmain | hrest
        · simp at hmain
          rcases hmain with ⟨rfl, rfl⟩ | ⟨rfl, rfl⟩ | ⟨rfl, rfl⟩ | ⟨rfl, rfl⟩ | ⟨rfl, rfl⟩ | ⟨rfl, rfl⟩ <;>
            first
              | exact metricShape_comma _ _
              | exact metricShape_currency _ _
              | exact metricShape_opc _
              | exact metricShape_dup _
        · exact absurd hrest (orderChartsRest_no_metric db l v)

/-- C5 (amended): count metrics are rendered with thousands separators
(`fmtComma`) and currency metrics in the grouped two-decimal dollar format
(`fmtCurrency`), but the `Orders per Customer` metric is rendered with the
ungrouped `{:.2f}` format and the `Duplicate Factor` metric with plain
default formatting, neither of which inserts thousands separators. -/
theorem c5_amended_metric_formats (connOk : Bool) (sel : String) (db : Db)
    (l v : String) (h : Ev.metric l v ∈ eventsOf (appMain connOk sel db)) :
    metricShape l v := by
  cases connOk
  · exfalso
    revert h
    simp [appMain, eventsOf]
  · rw [appMain_true_eq] at h
    unfold eventsOf at h
    rw [List.mem_append, List.mem_append] at h
    rcases h with (hc | hd) | hf
    · exfalso
      revert hc
      simp [chromePre]
    · unfold dispatch at hd
      split at hd
      · exact overview_metric_shape db l v hd
      · split at hd
        · exact absurd hd (customer_no_metric db l v)
        · split at hd
          · exact order_metric_shape db l v hd
          · split at hd
            · exact absurd hd (sales_no_metric db l v)
            · split at hd
              · exact absurd hd (time_no_metric db l v)
              · exfalso
                revert hd
                simp
    · exfalso
      revert hf
      split <;> simp [footerEvs]

/-- Witness for the amended C5 at a concrete rendered metric. -/
theorem c5_amended_metric_formats_witness :
    Ev.metric "Total Customers" "0" ∈ eventsOf (appMain true " Overview" dbEmpty) ∧
    metricShape "Total Customers" "0" :=
  ⟨by decide,
   c5_amended_metric_formats true " Overview" dbEmpty "Total Customers" "0" (by decide)⟩

/-- C6: when the connection cannot be obtained the run renders the title
and exactly one user-facing error, stops, and issues no query and no
report content (no header, metric or chart); there is no retry path in
the run. -/
theorem c6_connection_failure_aborts (sel : String) (db : Db) :
    appMain false sel db =
      ([Ev.title dashTitle, Ev.rule, Ev.error connectErrMsg, Ev.stop], none) ∧
    queriesIn (eventsOf (appMain false sel db)) = [] ∧
    ((eventsOf (appMain false sel db)).filter isErrorEv).length = 1 ∧
    (∀ s, Ev.header s ∉ eventsOf (appMain false sel db)) ∧
    (∀ a b, Ev.metric a b ∉ eventsOf (appMain false sel db)) ∧
    (∀ k t, Ev.chart k t ∉ eventsOf (appMain false sel db)) := by
  refine ⟨rfl, rfl, rfl, ?_, ?_, ?_⟩
  · intro s
    simp [appMain, eventsOf]
  · intro a b
    simp [appMain, eventsOf]
  · intro k t
    simp [appMain, eventsOf]

theorem mem_dispatchQueries_of_mem (connOk : Bool) (sel : String) (db : Db)
    (p : String × Nat) (h : p ∈ queriesIn (eventsOf (appMain connOk sel db))) :
    p ∈ dispatchQueries sel := by
  cases connOk
  · simp [appMain, eventsOf, queriesIn] at h
  · rw [queriesIn_appMain_true] at h
    exact dispatch_queries_sub sel db p h

theorem dispatchQueries_ttl (sel : String) (p : String × Nat)
    (h : p ∈ dispatchQueries sel) : p.2 = 600 := by
  unfold dispatchQueries at h
  split at h
  · fin_cases h <;> rfl
  · split at h
    · fin_cases h
      rfl
    · split at h
      · fin_cases h <;> rfl
      · split at h
        · fin_cases h
          rfl
        · split at h
          · fin_cases h
            rfl
          · simp at h

/-- C7: every query issued in any run, for any report and any database,
carries the freshness window ttl = 600; none omits it or uses another
value. -/
theorem c7_uniform_ttl (connOk : Bool) (sel : String) (db : Db) (q : String) (t : Nat)
    (h : (q, t) ∈ queriesIn (eventsOf (appMain connOk sel db))) : t = 600 :=
  dispatchQueries_ttl sel (q, t) (mem_dispatchQueries_of_mem connOk sel db (q, t) h)

set_option maxRecDepth 4000 in
/-- Witness for C7 at the Customer Analysis query. -/
theorem c7_uniform_ttl_witness :
    (sqlCustomerState, 600) ∈
      queriesIn (eventsOf (appMain true " Customer Analysis" dbEmpty)) ∧
    (600 : Nat) = 600 :=
  ⟨by decide, c7_uniform_ttl true " Customer Analysis" dbEmpty sqlCustomerState 600 (by decide)⟩

set_option maxRecDepth 8000 in
theorem dispatchQueries_read_only (sel : String) (p : String × Nat)
    (h : p ∈ dispatchQueries sel) : isReadOnlySelect p.1 = true := by
  unfold dispatchQueries at h
  split at h
  · fin_cases h <;> decide
  · split at h
    · fin_cases h
      decide
    · split at h
      · fin_cases h <;> decide
      · split at h
        · fin_cases h
          decide
        · split at h
          · fin_cases h
            decide
          · simp at h

/-- C8: every SQL string issued by any Panel of any report in any run is a
read-only SELECT statement: its first token is SELECT and it contains no
write, update, delete or DDL keyword. -/
theorem c8_read_only_queries (connOk : Bool) (sel : String) (db : Db) (q : String) (t : Nat)
    (h : (q, t) ∈ queriesIn (eventsOf (appMain connOk sel db))) :
    isReadOnlySelect q = true :=
  dispatchQueries_read_only sel (q, t) (mem_dispatchQueries_of_mem connOk sel db (q, t) h)

set_option maxRecDepth 8000 in
/-- Witness for C8 at the Customer Analysis query. -/
theorem c8_read_only_queries_witness :
    (sqlCustomerState, 600) ∈
      queriesIn (eventsOf (appMain true " Customer Analysis" dbEmpty)) ∧
    isReadOnlySelect sqlCustomerState = true :=
  ⟨by decide, c8_read_only_queries true " Customer Analysis" dbEmpty sqlCustomerState 600 (by decide)⟩

theorem distinctList_ne_nil [DecidableEq α] {l : List α} (h : l ≠ []) :
    distinctList l ≠ [] := by
  cases l with
  | nil => exact absurd rfl h
  | cons a t =>
    unfold distinctList
    split
    · next hmem =>
      intro hnil
      rw [hnil] at hmem
      simp at hmem
    · simp

theorem sumPayments_nil (db : Db) (h : db.payments = []) : sumPayments db = none := by
  unfold sumPayments
  rw [h]
  rfl

theorem avgPayments_nil (db : Db) (h : db.payments = []) : avgPayments db = none := by
  unfold avgPayments
  rw [h]
  rfl

theorem ordersPerCustomer_isSome (db : Db) (h : db.orders ≠ []) :
    ∃ r, ordersPerCustomer db = some r := by
  unfold ordersPerCustomer
  have hc : countActiveCustomers db ≠ 0 := by
    unfold countActiveCustomers
    intro hz
    rw [List.length_eq_zero] at hz
    exact distinctList_ne_nil (fun hm => h (List.map_eq_nil_iff.mp hm)) hz
  exact ⟨_, by rw [if_neg hc]⟩

/-- C9: the metric Panels access and format the first result cell with no
emptiness or NULL guard: with an empty payments table, SUM and AVG come
back NULL and the Overview run aborts with the TypeError from formatting
None (rendering no `Total Revenue` metric while the unguarded preceding
metrics did render), and the Order Analysis run aborts the same way at its
average-value metric whenever its preceding division succeeds. -/
theorem c9_null_aggregate_type_error (db : Db) (h : db.payments = []) :
    scriptErr (appMain true " Overview" db) = some typeErrNone ∧
    (∀ v, Ev.metric "Total Revenue" v ∉ eventsOf (appMain true " Overview" db)) ∧
    Ev.metric "Total Customers" (fmtComma (countCustomers db)) ∈
      eventsOf (appMain true " Overview" db) ∧
    (db.orders ≠ [] → scriptErr (appMain true " Order Analysis" db) = some typeErrNone) := by
  have hs : sumPayments db = none := sumPayments_nil db h
  have hover : dispatch " Overview" db =
      ([Ev.header "Dashboard Overview",
        Ev.query sqlTotalCustomers 600,
        Ev.metric "Total Customers" (fmtComma (countCustomers db)),
        Ev.query sqlUniqueOrders 600,
        Ev.metric "Unique Orders" (fmtComma (countDistinctOrders db)),
        Ev.query sqlOrderRecords 600,
        Ev.metric "Order Records" (fmtComma (countOrderRecords db)),
        Ev.query sqlTotalRevenue 600], some typeErrNone) := by
    rw [dispatch_overview]
    unfold renderOverview
    rw [hs]
  have he : eventsOf (appMain true " Overview" db) =
      chromePre ++
        [Ev.header "Dashboard Overview",
         Ev.query sqlTotalCustomers 600,
         Ev.metric "Total Customers" (fmtComma (countCustomers db)),
         Ev.query sqlUniqueOrders 600,
         Ev.metric "Unique Orders" (fmtComma (countDistinctOrders db)),
         Ev.query sqlOrderRecords 600,
         Ev.metric "Order Records" (fmtComma (countOrderRecords db)),
         Ev.query sqlTotalRevenue 600] ++ [] := by
    rw [appMain_true_eq, hover]
    rfl
  refine ⟨?_, ?_, ?_, ?_⟩
  · rw [scriptErr_appMain_true, hover]
  · intro v
    rw [he]
    simp [chromePre]
  · rw [he]
    simp
  · intro horders
    obtain ⟨r, hr⟩ := ordersPerCustomer_isSome db horders
    have ha : avgPayments db = none := avgPayments_nil db h
    rw [scriptErr_appMain_true, dispatch_order]
    simp [renderOrderAnalysis, hr, ha]

/-- Witness for C9 on a database with one order and no payments. -/
theorem c9_null_aggregate_type_error_witness :
    (dbNoPayments.payments = [] ∧ dbNoPayments.orders ≠ []) ∧
    scriptErr (appMain true " Overview" dbNoPayments) = some typeErrNone ∧
    scriptErr (appMain true " Order Analysis" dbNoPayments) = some typeErrNone :=
  ⟨⟨rfl, by simp [dbNoPayments]⟩,
   (c9_null_aggregate_type_error dbNoPayments rfl).1,
   (c9_null_aggregate_type_error dbNoPayments rfl).2.2.2 (by simp [dbNoPayments])⟩

/-- C10: for any selection value outside the five dispatch strings (each of
which begins with a leading space), no branch runs: no query is issued, no
section header, no chart and no error is rendered, the script completes,
and the page title and footer are still rendered. -/
theorem c10_unknown_selection_chrome_only (sel : String) (db : Db)
    (h : sel ∉ selectboxOptions) :
    appMain true sel db = (chromePre ++ footerEvs, none) ∧
    queriesIn (eventsOf (appMain true sel db)) = [] ∧
    (∀ s, Ev.header s ∉ eventsOf (appMain true sel db)) ∧
    (∀ s, Ev.error s ∉ eventsOf (appMain true sel db)) ∧
    (∀ k t, Ev.chart k t ∉ eventsOf (appMain true sel db)) ∧
    scriptErr (appMain true sel db) = none ∧
    Ev.title dashTitle ∈ eventsOf (appMain true sel db) ∧
    Ev.markdown "Built with ❤ using Python, SQL & Streamlit" ∈
      eventsOf (appMain true sel db) := by
  simp only [selectboxOptions, List.mem_cons, List.not_mem_nil, or_false, not_or] at h
  obtain ⟨h1, h2, h3, h4, h5⟩ := h
  have hd : dispatch sel db = ([], none) := by
    unfold dispatch
    rw [if_neg h1, if_neg h2, if_neg h3, if_neg h4, if_neg h5]
  have he : appMain true sel db = (chromePre ++ footerEvs, none) := by
    rw [appMain_true_eq, hd]
    rfl
  refine ⟨he, ?_, ?_, ?_, ?_, ?_, ?_, ?_⟩
  · rw [he]
    rfl
  · intro s
    rw [he]
    simp [eventsOf, chromePre, footerEvs]
  · intro s
    rw [he]
    simp [eventsOf, chromePre, footerEvs]
  · intro k t
    rw [he]
    simp [eventsOf, chromePre, footerEvs]
  · rw [he]
    rfl
  · rw [he]
    simp [eventsOf, chromePre]
  · rw [he]
    simp [eventsOf, footerEvs]

/-- Witness for C10 at the selection value lacking the leading space. -/
theorem c10_unknown_selection_chrome_only_witness :
    "Overview" ∉ selectboxOptions ∧
    appMain true "Overview" dbEmpty = (chromePre ++ footerEvs, none) :=
  ⟨by decide, (c10_unknown_selection_chrome_only "Overview" dbEmpty (by decide)).1⟩
